import Mathlib

/-!
Verification development for the Deployment State & Rollback Engine of a
multi-tenant deployment orchestrator. The definitions below are a shallow
embedding of `scripts/modules/deployment_state_manager.py` and
`scripts/modules/deployment_rollback.py`: pure data is translated directly,
file-system and remote (SSH/SCP) effects become explicit state passing and
outcome parameters, Python exceptions become `Except`, and wall-clock
timestamps become explicit `String` arguments.
-/

/-- Embeds `DeploymentStatus` (deployment_state_manager.py, lines 20-31). -/
inductive DeploymentStatus where
  | initializing
  | validating
  | provisioning
  | deploying
  | running
  | updating
  | degraded
  | failed
  | rolling_back
  | rolled_back
  deriving DecidableEq

/-- Embeds `ServiceStatus` (deployment_state_manager.py, lines 34-40). -/
inductive ServiceStatus where
  | starting
  | healthy
  | unhealthy
  | stopped
  | unknown
  deriving DecidableEq

/-- The lowercase string tag of a deployment status (`DeploymentStatus.value`). -/
def deploymentStatusStr : DeploymentStatus → String
  | DeploymentStatus.initializing => "initializing"
  | DeploymentStatus.validating => "validating"
  | DeploymentStatus.provisioning => "provisioning"
  | DeploymentStatus.deploying => "deploying"
  | DeploymentStatus.running => "running"
  | DeploymentStatus.updating => "updating"
  | DeploymentStatus.degraded => "degraded"
  | DeploymentStatus.failed => "failed"
  | DeploymentStatus.rolling_back => "rolling_back"
  | DeploymentStatus.rolled_back => "rolled_back"

/-- Enum lookup `DeploymentStatus(value)`; `none` models the `ValueError`
raised on an unknown tag. -/
def deploymentStatusOfStr (s : String) : Option DeploymentStatus :=
  if s = "initializing" then some DeploymentStatus.initializing
  else if s = "validating" then some DeploymentStatus.validating
  else if s = "provisioning" then some DeploymentStatus.provisioning
  else if s = "deploying" then some DeploymentStatus.deploying
  else if s = "running" then some DeploymentStatus.running
  else if s = "updating" then some DeploymentStatus.updating
  else if s = "degraded" then some DeploymentStatus.degraded
  else if s = "failed" then some DeploymentStatus.failed
  else if s = "rolling_back" then some DeploymentStatus.rolling_back
  else if s = "rolled_back" then some DeploymentStatus.rolled_back
  else none

/-- The lowercase string tag of a service status (`ServiceStatus.value`). -/
def serviceStatusStr : ServiceStatus → String
  | ServiceStatus.starting => "starting"
  | ServiceStatus.healthy => "healthy"
  | ServiceStatus.unhealthy => "unhealthy"
  | ServiceStatus.stopped => "stopped"
  | ServiceStatus.unknown => "unknown"

/-- Enum lookup `ServiceStatus(value)`; `none` models the `ValueError`
raised on an unknown tag. -/
def serviceStatusOfStr (s : String) : Option ServiceStatus :=
  if s = "starting" then some ServiceStatus.starting
  else if s = "healthy" then some ServiceStatus.healthy
  else if s = "unhealthy" then some ServiceStatus.unhealthy
  else if s = "stopped" then some ServiceStatus.stopped
  else if s = "unknown" then some ServiceStatus.unknown
  else none

/-- Embeds the `ServiceState` dataclass (deployment_state_manager.py, 43-53). -/
structure ServiceState where
  name : String
  status : ServiceStatus
  version : Option String := none
  image : Option String := none
  ports : List Int := []
  last_updated : Option String := none
  health_check_failures : Int := 0
  environment_hash : Option String := none
  deriving DecidableEq

/-- Embeds the `DeploymentState` dataclass (deployment_state_manager.py, 68-83).
Python dicts become insertion-ordered association lists; the open `metadata`
bag is abstracted as string keys to string values. -/
structure DeploymentState where
  deployment_id : String
  tenant : String
  status : DeploymentStatus
  runtime : String
  domain : String
  started_at : String
  updated_at : String
  vm_host : String
  vm_user : String
  services : List (String × ServiceState) := []
  metadata : List (String × String) := []
  previous_deployment_id : Option String := none
  rollback_available : Bool := false
  deriving DecidableEq

/-- The JSON shape of a serialized `ServiceState` (`ServiceState.to_dict`):
the status enum is replaced by its string tag. -/
structure ServiceDict where
  name : String
  status : String
  version : Option String
  image : Option String
  ports : List Int
  last_updated : Option String
  health_check_failures : Int
  environment_hash : Option String
  deriving DecidableEq

/-- The JSON shape of a serialized `DeploymentState` (`DeploymentState.to_dict`). -/
structure StateDict where
  deployment_id : String
  tenant : String
  status : String
  runtime : String
  domain : String
  started_at : String
  updated_at : String
  vm_host : String
  vm_user : String
  services : List (String × ServiceDict)
  metadata : List (String × String)
  previous_deployment_id : Option String
  rollback_available : Bool
  deriving DecidableEq

/-- Embeds `ServiceState.to_dict` (asdict plus enum-to-string). -/
def serviceToDict (s : ServiceState) : ServiceDict :=
  { name := s.name
    status := serviceStatusStr s.status
    version := s.version
    image := s.image
    ports := s.ports
    last_updated := s.last_updated
    health_check_failures := s.health_check_failures
    environment_hash := s.environment_hash }

/-- Embeds `ServiceState.from_dict`; `none` models the exception raised on an
invalid status tag. -/
def serviceFromDict (d : ServiceDict) : Option ServiceState :=
  match serviceStatusOfStr d.status with
  | none => none
  | some st =>
      some { name := d.name
             status := st
             version := d.version
             image := d.image
             ports := d.ports
             last_updated := d.last_updated
             health_check_failures := d.health_check_failures
             environment_hash := d.environment_hash }

/-- Per-entry deserialization of the `services` mapping; any entry failure
aborts the whole conversion (the Python comprehension propagates it). -/
def servicesFromDict : List (String × ServiceDict) → Option (List (String × ServiceState))
  | [] => some []
  | (n, d) :: rest =>
      match serviceFromDict d, servicesFromDict rest with
      | some s, some r => some ((n, s) :: r)
      | _, _ => none

/-- Embeds `DeploymentState.to_dict` (deployment_state_manager.py, 85-94). -/
def stateToDict (s : DeploymentState) : StateDict :=
  { deployment_id := s.deployment_id
    tenant := s.tenant
    status := deploymentStatusStr s.status
    runtime := s.runtime
    domain := s.domain
    started_at := s.started_at
    updated_at := s.updated_at
    vm_host := s.vm_host
    vm_user := s.vm_user
    services := s.services.map (fun p => (p.1, serviceToDict p.2))
    metadata := s.metadata
    previous_deployment_id := s.previous_deployment_id
    rollback_available := s.rollback_available }

/-- Embeds `DeploymentState.from_dict` (deployment_state_manager.py, 96-110);
`none` models the exception raised on an invalid enum tag. -/
def stateFromDict (d : StateDict) : Option DeploymentState :=
  match deploymentStatusOfStr d.status, servicesFromDict d.services with
  | some st, some svcs =>
      some { deployment_id := d.deployment_id
             tenant := d.tenant
             status := st
             runtime := d.runtime
             domain := d.domain
             started_at := d.started_at
             updated_at := d.updated_at
             vm_host := d.vm_host
             vm_user := d.vm_user
             services := svcs
             metadata := d.metadata
             previous_deployment_id := d.previous_deployment_id
             rollback_available := d.rollback_available }
  | _, _ => none

/-- Lookup in an insertion-ordered association list (Python `dict[k]` / `k in dict`). -/
def dictGet (k : String) : List (String × α) → Option α
  | [] => none
  | (k1, v1) :: rest => if k1 = k then some v1 else dictGet k rest

/-- Update-or-append on an insertion-ordered association list
(Python `dict[k] = v`: replaces in place, else appends). -/
def dictSet (k : String) (v : α) : List (String × α) → List (String × α)
  | [] => [(k, v)]
  | (k1, v1) :: rest => if k1 = k then (k, v) :: rest else (k1, v1) :: dictSet k v rest

/-- The observable state of a `DeploymentStateManager` for one tenant:
the contents of `deployment-state.json` (`none` when the file does not
exist or what it holds), the backup directory as a newest-first list of
backed-up state files, and the in-memory `current_state`. -/
structure ManagerState where
  tenant : String
  stateFile : Option StateDict := none
  backups : List StateDict := []
  current : Option DeploymentState := none
  deriving DecidableEq

/-- Embeds `DeploymentStateManager.load_state` (lines 142-166): returns the
parsed record and the manager afterwards. A missing file or a parse failure
returns `none` and leaves `current_state` untouched. -/
def load_state (mgr : ManagerState) : Option DeploymentState × ManagerState :=
  match mgr.stateFile with
  | none => (none, mgr)
  | some d =>
      match stateFromDict d with
      | none => (none, mgr)
      | some s => (some s, { mgr with current := some s })

/-- Embeds `DeploymentStateManager.save_state` (lines 168-193) together with
`_backup_current_state` and `_cleanup_old_backups` (retention 10): optionally
back up the existing file, refresh `updated_at` to `now`, write the record,
and set the in-memory current record. -/
def save_state (mgr : ManagerState) (state : DeploymentState) (now : String)
    (create_backup : Bool) : ManagerState :=
  let mgr1 :=
    match mgr.stateFile, create_backup with
    | some d, true => { mgr with backups := (d :: mgr.backups).take 10 }
    | _, _ => mgr
  let state1 := { state with updated_at := now }
  { mgr1 with stateFile := some (stateToDict state1), current := some state1 }

/-- Embeds `DeploymentStateManager.create_new_deployment` (lines 223-269);
`timestamp` is the `%Y%m%d-%H%M%S` clock reading used for the id and `now`
the ISO timestamp used for the record. -/
def create_new_deployment (mgr : ManagerState) (timestamp now : String)
    (runtime domain vm_host vm_user : String)
    (metadata : Option (List (String × String))) :
    DeploymentState × ManagerState :=
  let deployment_id := "deploy-" ++ timestamp
  let loaded := load_state mgr
  let previous_state := loaded.1
  let mgr1 := loaded.2
  let state : DeploymentState :=
    { deployment_id := deployment_id
      tenant := mgr.tenant
      status := DeploymentStatus.initializing
      runtime := runtime
      domain := domain
      started_at := now
      updated_at := now
      vm_host := vm_host
      vm_user := vm_user
      services := []
      metadata := metadata.getD []
      previous_deployment_id := previous_state.map (fun p => p.deployment_id)
      rollback_available := previous_state.isSome }
  (state, save_state mgr1 state now true)

/-- Embeds `DeploymentStateManager.update_status` (lines 271-282); the
`Except.error` models the `ValueError` raised when no record is loaded. -/
def update_status (mgr : ManagerState) (status : DeploymentStatus) (now : String) :
    Except String ManagerState :=
  match mgr.current with
  | none => Except.error "No current deployment state loaded"
  | some s => Except.ok (save_state mgr { s with status := status } now true)

/-- Embeds `DeploymentStateManager.add_service` (lines 284-314). -/
def add_service (mgr : ManagerState) (service_name : String)
    (version image : Option String) (ports : Option (List Int)) (now : String) :
    Except String ManagerState :=
  match mgr.current with
  | none => Except.error "No current deployment state loaded"
  | some s =>
      let service_state : ServiceState :=
        { name := service_name
          status := ServiceStatus.starting
          version := version
          image := image
          ports := ports.getD []
          last_updated := some now }
      Except.ok (save_state mgr
        { s with services := dictSet service_name service_state s.services } now true)

/-- Embeds `DeploymentStateManager.update_service_status` (lines 316-348).
An unknown service name only logs a warning and returns with nothing saved. -/
def update_service_status (mgr : ManagerState) (service_name : String)
    (status : ServiceStatus) (increment_failures : Bool) (now : String) :
    Except String ManagerState :=
  match mgr.current with
  | none => Except.error "No current deployment state loaded"
  | some s =>
      match dictGet service_name s.services with
      | none => Except.ok mgr
      | some service =>
          let service1 := { service with status := status, last_updated := some now }
          let service2 :=
            if increment_failures then
              { service1 with health_check_failures := service1.health_check_failures + 1 }
            else service1
          let service3 :=
            if status = ServiceStatus.healthy then
              { service2 with health_check_failures := 0 }
            else service2
          Except.ok (save_state mgr
            { s with services := dictSet service_name service3 s.services } now true)

/-- Embeds `DeploymentStateManager.set_environment_hash` (lines 350-366). -/
def set_environment_hash (mgr : ManagerState) (service_name env_hash : String)
    (now : String) : Except String ManagerState :=
  match mgr.current with
  | none => Except.error "No current deployment state loaded"
  | some s =>
      match dictGet service_name s.services with
      | none => Except.ok mgr
      | some service =>
          Except.ok (save_state mgr
            { s with services :=
                (dictSet service_name { service with environment_hash := some env_hash }
                  s.services) } now true)

/-- Embeds `DeploymentStateManager.requires_update` (lines 380-398). -/
def requires_update (mgr : ManagerState) (service_name new_env_hash : String) : Bool :=
  match mgr.current with
  | none => true
  | some s =>
      match dictGet service_name s.services with
      | none => true
      | some service => decide (service.environment_hash ≠ some new_env_hash)

/-- Embeds `DeploymentStateManager.mark_rollback_started` (lines 431-435). -/
def mark_rollback_started (mgr : ManagerState) (now : String) : ManagerState :=
  match mgr.current with
  | none => mgr
  | some s => save_state mgr { s with status := DeploymentStatus.rolling_back } now true

/-- Embeds `DeploymentStateManager.mark_rollback_complete` (lines 437-441). -/
def mark_rollback_complete (mgr : ManagerState) (now : String) : ManagerState :=
  match mgr.current with
  | none => mgr
  | some s => save_state mgr { s with status := DeploymentStatus.rolled_back } now true

/-- The newest-first scan of the backup history inside `get_previous_state`:
a backup whose raw `deployment_id` matches but fails to parse is skipped
with a warning (the per-file `except` clause) and the scan continues. -/
def findBackup (pid : String) : List StateDict → Option DeploymentState
  | [] => none
  | d :: rest =>
      if d.deployment_id = pid then
        match stateFromDict d with
        | some s => some s
        | none => findBackup pid rest
      else findBackup pid rest

/-- Embeds `DeploymentStateManager.get_previous_state` (lines 443-467).
Python truthiness: an empty-string `previous_deployment_id` counts as absent. -/
def get_previous_state (mgr : ManagerState) : Option DeploymentState :=
  match mgr.current with
  | none => none
  | some s =>
      match s.previous_deployment_id with
      | none => none
      | some pid => if pid = "" then none else findBackup pid mgr.backups

/-- True exactly on `Except.error` (a raised exception in the source). -/
def excIsError : Except String α → Bool
  | Except.error _ => true
  | Except.ok _ => false

/-- The manager state after an operation that raises on failure: a raised
`ValueError` happens before any mutation, so the state is unchanged. -/
def afterOp (r : Except String ManagerState) (mgr : ManagerState) : ManagerState :=
  match r with
  | Except.ok m => m
  | Except.error _ => mgr

/-- The static local-name-to-remote-path table of
`DeploymentSnapshot._upload_configurations` (deployment_rollback.py, 284-289). -/
def file_mapping : List (String × String) :=
  [("paas-deployment_docker-compose.yml", "~/paas-deployment/docker-compose.yml"),
   ("paas-deployment_.env", "~/paas-deployment/.env"),
   ("paas-deployment_configs_", "~/paas-deployment/configs/"),
   ("_opt_deployment-state.yml", "/opt/deployment-state.yml")]

/-- Environment of a `restore_snapshot` run: the outcome of extracting the
archive, the directories found inside, whether the metadata record is present,
which captured files exist in the extracted snapshot, and the outcome of each
`scp_upload` transport call, keyed by local file name. -/
structure RestoreEnv where
  extract_result : Except String Unit
  extracted_dirs : List String
  metadata_present : Bool
  files_present : List String
  upload_result : String → Except String Unit

/-- The warning logged for one entry of `file_mapping` during
`_upload_configurations`, if any: a missing file or a caught upload
exception produces a warning; a successful upload produces none. -/
def uploadLogEntry (env : RestoreEnv) (entry : String × String) : Option String :=
  if entry.1 ∈ env.files_present then
    match env.upload_result entry.1 with
    | Except.ok _ => none
    | Except.error e => some ("Failed to upload " ++ entry.1 ++ ": " ++ e)
  else some ("File not found in snapshot: " ++ entry.1)

/-- The loop body of `DeploymentSnapshot._upload_configurations`
(deployment_rollback.py, 291-314) over a remaining worklist: every upload
exception is caught, logged, and the loop continues with the next file. -/
def uploadConfigurationsGo (env : RestoreEnv) : List (String × String) → List String
  | [] => []
  | entry :: rest =>
      match uploadLogEntry env entry with
      | none => uploadConfigurationsGo env rest
      | some w => w :: uploadConfigurationsGo env rest

/-- Embeds `DeploymentSnapshot._upload_configurations`: returns the warnings
logged; the function itself never raises past a single file. -/
def upload_configurations (env : RestoreEnv) : List String :=
  uploadConfigurationsGo env file_mapping

/-- Embeds `DeploymentSnapshot.restore_snapshot` (deployment_rollback.py,
212-270): an extraction failure or an archive with no top-level directory
raises `RollbackError`; otherwise the captured files are re-uploaded and the
call returns `true` together with the upload warnings logged. -/
def restore_snapshot (env : RestoreEnv) : Except String (Bool × List String) :=
  match env.extract_result with
  | Except.error e => Except.error ("Failed to restore snapshot: " ++ e)
  | Except.ok _ =>
      if env.extracted_dirs.isEmpty then
        Except.error "Failed to restore snapshot: No directory found in snapshot archive"
      else
        Except.ok (true, upload_configurations env)

/-- One entry of `DeploymentSnapshot.list_snapshots`: the metadata of a
parsed snapshot archive. -/
structure SnapshotMeta where
  deployment_id : String
  snapshot_file : String
  deriving DecidableEq

/-- Embeds `DeploymentRollback.can_rollback` (deployment_rollback.py,
331-352): loads the state and reports eligibility with a reason. -/
def can_rollback (mgr : ManagerState) : (Bool × Option String) × ManagerState :=
  let loaded := load_state mgr
  match loaded.1 with
  | none => ((false, some "No deployment state found"), loaded.2)
  | some s =>
      if s.rollback_available = false then
        ((false, some "No previous deployment available"), loaded.2)
      else if s.status = DeploymentStatus.rolling_back then
        ((false, some "Rollback already in progress"), loaded.2)
      else if s.status = DeploymentStatus.rolled_back then
        ((false, some "Already rolled back"), loaded.2)
      else ((true, none), loaded.2)

/-- Environment of a `rollback_deployment` run: the snapshot listing and the
outcome of each remote step (stop, restore, restart, verify). An `error`
value models any exception raised inside that step. -/
structure RollbackEnv where
  snapshots : List SnapshotMeta
  stop_result : Except String Unit
  restore_result : Except String Unit
  restart_result : Except String Unit
  verify_result : Except String Unit

/-- Embeds `DeploymentRollback.rollback_deployment` (deployment_rollback.py,
354-427): re-checks eligibility, marks `ROLLING_BACK`, resolves the previous
state, finds the matching snapshot, then stops, restores, restarts and
optionally verifies; any exception in the `try` block is wrapped into a
single `RollbackError` and the manager is left as it was at the failure
point (status still `ROLLING_BACK`). Returns the call result and the
manager afterwards. -/
def rollback_deployment (mgr : ManagerState) (now : String) (env : RollbackEnv)
    (verify_health : Bool) : Except String Bool × ManagerState :=
  let checked := can_rollback mgr
  let mgr1 := checked.2
  if checked.1.1 = false then
    (Except.error ("Rollback not possible: " ++ (checked.1.2.getD "None")), mgr1)
  else
    let mgr2 := mark_rollback_started mgr1 now
    match get_previous_state mgr2 with
    | none => (Except.error "Rollback failed: Previous deployment state not found", mgr2)
    | some previous_state =>
        match env.snapshots.find? (fun m => m.deployment_id = previous_state.deployment_id) with
        | none =>
            (Except.error ("Rollback failed: Snapshot not found for deployment: " ++
              previous_state.deployment_id), mgr2)
        | some _ =>
            match env.stop_result with
            | Except.error e => (Except.error ("Rollback failed: " ++ e), mgr2)
            | Except.ok _ =>
                match env.restore_result with
                | Except.error e => (Except.error ("Rollback failed: " ++ e), mgr2)
                | Except.ok _ =>
                    match env.restart_result with
                    | Except.error e => (Except.error ("Rollback failed: " ++ e), mgr2)
                    | Except.ok _ =>
                        if verify_health then
                          match env.verify_result with
                          | Except.error e => (Except.error ("Rollback failed: " ++ e), mgr2)
                          | Except.ok _ => (Except.ok true, mark_rollback_complete mgr2 now)
                        else (Except.ok true, mark_rollback_complete mgr2 now)

/-- Whether any step of the rollback sequence after `mark_rollback_started`
fails, relative to the manager state `mgr2` at that point. -/
def rollbackStepFails (mgr2 : ManagerState) (env : RollbackEnv)
    (verify_health : Bool) : Bool :=
  match get_previous_state mgr2 with
  | none => true
  | some previous_state =>
      match env.snapshots.find? (fun m => m.deployment_id = previous_state.deployment_id) with
      | none => true
      | some _ =>
          excIsError env.stop_result || excIsError env.restore_result ||
            excIsError env.restart_result ||
            (verify_health && excIsError env.verify_result)

/-- The status string recorded in the persisted state file, if any. -/
def persistedStatus (mgr : ManagerState) : Option String :=
  mgr.stateFile.map (fun d => d.status)

/-- The status of the in-memory current record, if any. -/
def currentStatus (mgr : ManagerState) : Option DeploymentStatus :=
  mgr.current.map (fun s => s.status)

/-! ### Serialization round-trip lemmas -/

lemma deploymentStatus_roundtrip (st : DeploymentStatus) :
    deploymentStatusOfStr (deploymentStatusStr st) = some st := by
  cases st <;> rfl

lemma serviceStatus_roundtrip (st : ServiceStatus) :
    serviceStatusOfStr (serviceStatusStr st) = some st := by
  cases st <;> rfl

lemma serviceFromDict_toDict (s : ServiceState) :
    serviceFromDict (serviceToDict s) = some s := by
  cases s
  simp [serviceToDict, serviceFromDict, serviceStatus_roundtrip]

lemma servicesFromDict_toDict (l : List (String × ServiceState)) :
    servicesFromDict (l.map (fun p => (p.1, serviceToDict p.2))) = some l := by
  induction l with
  | nil => rfl
  | cons p rest ih =>
      cases p
      simp [servicesFromDict, serviceFromDict_toDict, ih]

lemma stateFromDict_toDict (s : DeploymentState) :
    stateFromDict (stateToDict s) = some s := by
  cases s
  simp [stateToDict, stateFromDict, deploymentStatus_roundtrip, servicesFromDict_toDict]

/-! ### The rollback-availability invariant (claim C1 machinery) -/

/-- The spec invariant on a deployment record:
`rollback_available == (previous_deployment_id is not null)`. -/
def rbInv (s : DeploymentState) : Bool :=
  s.rollback_available == s.previous_deployment_id.isSome

/-- The same invariant read off a persisted (serialized) record. -/
def rbInvDict (d : StateDict) : Bool :=
  d.rollback_available == d.previous_deployment_id.isSome

/-- The invariant over a whole manager: it holds of the in-memory current
record and of the persisted state file, when they exist. -/
def mgrInv (mgr : ManagerState) : Bool :=
  (match mgr.current with
   | none => true
   | some s => rbInv s) &&
  (match mgr.stateFile with
   | none => true
   | some d => rbInvDict d)

/-- One State Manager operation, with its arguments (the clock readings made
inside the call become explicit `now`/`timestamp` arguments). -/
inductive MgrOp where
  | createNew (timestamp now runtime domain vm_host vm_user : String)
      (metadata : Option (List (String × String)))
  | saveOp (state : DeploymentState) (now : String) (create_backup : Bool)
  | updateStatusOp (status : DeploymentStatus) (now : String)
  | addServiceOp (service_name : String) (version image : Option String)
      (ports : Option (List Int)) (now : String)
  | updateServiceStatusOp (service_name : String) (status : ServiceStatus)
      (increment_failures : Bool) (now : String)
  | setEnvHashOp (service_name env_hash now : String)
  | markStartedOp (now : String)
  | markCompleteOp (now : String)

/-- Runs one operation against the manager; a raised `ValueError` leaves the
manager as it was (the source raises before any mutation). -/
def applyOp : MgrOp → ManagerState → ManagerState
  | MgrOp.createNew t n r d h u m, mgr => (create_new_deployment mgr t n r d h u m).2
  | MgrOp.saveOp s n cb, mgr => save_state mgr s n cb
  | MgrOp.updateStatusOp st n, mgr => afterOp (update_status mgr st n) mgr
  | MgrOp.addServiceOp sn v i p n, mgr => afterOp (add_service mgr sn v i p n) mgr
  | MgrOp.updateServiceStatusOp sn st inc n, mgr =>
      afterOp (update_service_status mgr sn st inc n) mgr
  | MgrOp.setEnvHashOp sn h n, mgr => afterOp (set_environment_hash mgr sn h n) mgr
  | MgrOp.markStartedOp n, mgr => mark_rollback_started mgr n
  | MgrOp.markCompleteOp n, mgr => mark_rollback_complete mgr n

/-- `save_state` persists whatever record its caller hands it, so for that one
operation the record passed in must itself satisfy the invariant; every other
operation builds its record internally. -/
def opInputOk : MgrOp → Bool
  | MgrOp.saveOp s _ _ => rbInv s
  | _ => true

lemma mgrInv_current (mgr : ManagerState) (s : DeploymentState)
    (h : mgrInv mgr = true) (hc : mgr.current = some s) : rbInv s = true := by
  unfold mgrInv at h
  rw [hc, Bool.and_eq_true] at h
  exact h.1

lemma rbInv_fromDict (d : StateDict) (s : DeploymentState)
    (hd : stateFromDict d = some s) (h : rbInvDict d = true) : rbInv s = true := by
  unfold stateFromDict at hd
  split at hd
  · injection hd with h2
    subst h2
    simpa [rbInv, rbInvDict] using h
  · exact absurd hd (by simp)

lemma mgrInv_save (mgr : ManagerState) (s : DeploymentState) (now : String)
    (cb : Bool) (h : rbInv s = true) : mgrInv (save_state mgr s now cb) = true := by
  unfold save_state mgrInv
  simp only []
  have h1 : rbInv { s with updated_at := now } = true := by
    simpa [rbInv] using h
  have h2 : rbInvDict (stateToDict { s with updated_at := now }) = true := by
    simpa [rbInvDict, stateToDict, rbInv] using h
  simp [h1, h2]

lemma load_state_inv (mgr : ManagerState) (h : mgrInv mgr = true) :
    mgrInv (load_state mgr).2 = true ∧
      ∀ s, (load_state mgr).1 = some s → rbInv s = true := by
  unfold load_state
  cases hf : mgr.stateFile with
  | none => exact ⟨by simpa using h, by simp⟩
  | some d =>
      have hd : rbInvDict d = true := by
        unfold mgrInv at h
        rw [hf, Bool.and_eq_true] at h
        exact h.2
      cases hp : stateFromDict d with
      | none =>
          refine ⟨by simpa [hp] using h, ?_⟩
          intro s hs1
          simp [hp] at hs1
      | some s =>
          have hs : rbInv s = true := rbInv_fromDict d s hp hd
          refine ⟨?_, ?_⟩
          · simp [hp, mgrInv, hs, hd]
          · intro s1 hs1
            simp [hp] at hs1
            subst hs1
            exact hs

lemma rbInv_set_status (s : DeploymentState) (st : DeploymentStatus)
    (h : rbInv s = true) : rbInv { s with status := st } = true := by
  simpa [rbInv] using h

lemma rbInv_set_services (s : DeploymentState) (svcs : List (String × ServiceState))
    (h : rbInv s = true) : rbInv { s with services := svcs } = true := by
  simpa [rbInv] using h

/-- C1: for every DeploymentState produced or persisted by any State Manager
operation (create_new_deployment, save_state, update_status, add_service,
update_service_status, set_environment_hash, mark_rollback_started,
mark_rollback_complete), `rollback_available` is true iff
`previous_deployment_id` is not absent: each operation preserves the
invariant on both the in-memory current record and the persisted state file,
where `save_state` is given a record already satisfying it (it persists its
caller's record verbatim) and every other operation needs nothing of its
arguments. -/
theorem rollback_available_invariant (op : MgrOp) (mgr : ManagerState)
    (hm : mgrInv mgr = true) (ho : opInputOk op = true) :
    mgrInv (applyOp op mgr) = true := by
  cases op with
  | createNew t n r d h u m =>
      have he : applyOp (MgrOp.createNew t n r d h u m) mgr =
          save_state (load_state mgr).2
            { deployment_id := "deploy-" ++ t
              tenant := mgr.tenant
              status := DeploymentStatus.initializing
              runtime := r
              domain := d
              started_at := n
              updated_at := n
              vm_host := h
              vm_user := u
              services := []
              metadata := m.getD []
              previous_deployment_id := (load_state mgr).1.map (fun p => p.deployment_id)
              rollback_available := (load_state mgr).1.isSome } n true := by
        simp [applyOp, create_new_deployment]
      rw [he]
      apply mgrInv_save
      cases hl : (load_state mgr).1 <;> simp [rbInv, hl]
  | saveOp s n cb => exact mgrInv_save _ _ _ _ ho
  | updateStatusOp st n =>
      cases hc : mgr.current with
      | none =>
          have he : applyOp (MgrOp.updateStatusOp st n) mgr = mgr := by
            simp [applyOp, afterOp, update_status, hc]
          rw [he]; exact hm
      | some s =>
          have he : applyOp (MgrOp.updateStatusOp st n) mgr =
              save_state mgr { s with status := st } n true := by
            simp [applyOp, afterOp, update_status, hc]
          rw [he]
          exact mgrInv_save _ _ _ _ (rbInv_set_status s st (mgrInv_current mgr s hm hc))
  | addServiceOp sn v i p n =>
      cases hc : mgr.current with
      | none =>
          have he : applyOp (MgrOp.addServiceOp sn v i p n) mgr = mgr := by
            simp [applyOp, afterOp, add_service, hc]
          rw [he]; exact hm
      | some s =>
          have he : applyOp (MgrOp.addServiceOp sn v i p n) mgr =
              save_state mgr
                { s with services :=
                    (dictSet sn
                      { name := sn
                        status := ServiceStatus.starting
                        version := v
                        image := i
                        ports := p.getD []
                        last_updated := some n } s.services) } n true := by
            simp [applyOp, afterOp, add_service, hc]
          rw [he]
          exact mgrInv_save _ _ _ _ (rbInv_set_services s _ (mgrInv_current mgr s hm hc))
  | updateServiceStatusOp sn st inc n =>
      cases hc : mgr.current with
      | none =>
          have he : applyOp (MgrOp.updateServiceStatusOp sn st inc n) mgr = mgr := by
            simp [applyOp, afterOp, update_service_status, hc]
          rw [he]; exact hm
      | some s =>
          cases hg : dictGet sn s.services with
          | none =>
              have he : applyOp (MgrOp.updateServiceStatusOp sn st inc n) mgr = mgr := by
                simp [applyOp, afterOp, update_service_status, hc, hg]
              rw [he]; exact hm
          | some service =>
              have he : applyOp (MgrOp.updateServiceStatusOp sn st inc n) mgr =
                  save_state mgr
                    { s with services :=
                        (dictSet sn
                          (let service1 :=
                            { service with status := st, last_updated := some n }
                           let service2 :=
                            if inc then
                              { service1 with health_check_failures :=
                                  service1.health_check_failures + 1 }
                            else service1
                           if st = ServiceStatus.healthy then
                             { service2 with health_check_failures := 0 }
                           else service2) s.services) } n true := by
                simp [applyOp, afterOp, update_service_status, hc, hg]
              rw [he]
              exact mgrInv_save _ _ _ _
                (rbInv_set_services s _ (mgrInv_current mgr s hm hc))
  | setEnvHashOp sn eh n =>
      cases hc : mgr.current with
      | none =>
          have he : applyOp (MgrOp.setEnvHashOp sn eh n) mgr = mgr := by
            simp [applyOp, afterOp, set_environment_hash, hc]
          rw [he]; exact hm
      | some s =>
          cases hg : dictGet sn s.services with
          | none =>
              have he : applyOp (MgrOp.setEnvHashOp sn eh n) mgr = mgr := by
                simp [applyOp, afterOp, set_environment_hash, hc, hg]
              rw [he]; exact hm
          | some service =>
              have he : applyOp (MgrOp.setEnvHashOp sn eh n) mgr =
                  save_state mgr
                    { s with services :=
                        (dictSet sn
                          { service with environment_hash := some eh } s.services) }
                    n true := by
                simp [applyOp, afterOp, set_environment_hash, hc, hg]
              rw [he]
              exact mgrInv_save _ _ _ _
                (rbInv_set_services s _ (mgrInv_current mgr s hm hc))
  | markStartedOp n =>
      cases hc : mgr.current with
      | none =>
          have he : applyOp (MgrOp.markStartedOp n) mgr = mgr := by
            simp [applyOp, mark_rollback_started, hc]
          rw [he]; exact hm
      | some s =>
          have he : applyOp (MgrOp.markStartedOp n) mgr =
              save_state mgr { s with status := DeploymentStatus.rolling_back } n true := by
            simp [applyOp, mark_rollback_started, hc]
          rw [he]
          exact mgrInv_save _ _ _ _ (rbInv_set_status s _ (mgrInv_current mgr s hm hc))
  | markCompleteOp n =>
      cases hc : mgr.current with
      | none =>
          have he : applyOp (MgrOp.markCompleteOp n) mgr = mgr := by
            simp [applyOp, mark_rollback_complete, hc]
          rw [he]; exact hm
      | some s =>
          have he : applyOp (MgrOp.markCompleteOp n) mgr =
              save_state mgr { s with status := DeploymentStatus.rolled_back } n true := by
            simp [applyOp, mark_rollback_complete, hc]
          rw [he]
          exact mgrInv_save _ _ _ _ (rbInv_set_status s _ (mgrInv_current mgr s hm hc))

/-- C1 witness: the invariant preservation theorem applied to a fresh manager
for tenant acme running `create_new_deployment`. -/
theorem rollback_available_invariant_witness :
    mgrInv { tenant := "acme" } = true ∧
      opInputOk (MgrOp.createNew "20240101-000000" "2024-01-01T00:00:00Z"
        "docker" "acme.example" "10.0.0.5" "deploy" none) = true ∧
      mgrInv (applyOp
        (MgrOp.createNew "20240101-000000" "2024-01-01T00:00:00Z"
          "docker" "acme.example" "10.0.0.5" "deploy" none)
        { tenant := "acme" }) = true :=
  ⟨by decide, by decide,
    rollback_available_invariant _ _ (by decide) (by decide)⟩

/-- C6: `save(state)` followed by `load()` yields a record equal to `state`
in every field except `updated_at` (which is refreshed to the save time). -/
theorem save_then_load_roundtrip (mgr : ManagerState) (s : DeploymentState)
    (now : String) :
    (load_state (save_state mgr s now true)).1 = some { s with updated_at := now } := by
  unfold save_state load_state
  simp [stateFromDict_toDict]

lemma string_append_cancel_left (p a b : String) (h : p ++ a = p ++ b) : a = b := by
  apply String.ext
  have hd : p.data ++ a.data = p.data ++ b.data := by
    have := congrArg String.data h
    simpa [String.data_append] using this
  exact List.append_cancel_left hd

/-- C5 counterexample: the deployment id is derived from a one-second
resolution timestamp (`deploy-%Y%m%d-%H%M%S`), so two consecutive
`create_new_deployment` calls within the same clock second return records
with the identical `deployment_id`, falsifying the unqualified distinctness
part of the claim. -/
theorem consecutive_create_same_second_counterexample :
    (create_new_deployment
      (create_new_deployment { tenant := "acme" } "20240101-000000"
        "2024-01-01T00:00:00.100Z" "docker" "acme.example" "10.0.0.5" "deploy"
        none).2
      "20240101-000000" "2024-01-01T00:00:00.900Z" "docker" "acme.example"
      "10.0.0.5" "deploy" none).1.deployment_id =
    (create_new_deployment { tenant := "acme" } "20240101-000000"
      "2024-01-01T00:00:00.100Z" "docker" "acme.example" "10.0.0.5" "deploy"
      none).1.deployment_id := by
  decide

/-- C5 (amended): for two consecutive `create_new_deployment` calls on the
same State Manager, the returned deployment ids are distinct provided the two
calls read distinct second-resolution timestamps (they coincide when made
within the same clock second); unconditionally, the second record's
`previous_deployment_id` equals the first record's `deployment_id` and its
`rollback_available` is true. -/
theorem consecutive_create_new_deployment (mgr : ManagerState)
    (t1 n1 t2 n2 r1 d1 h1 u1 r2 d2 h2 u2 : String)
    (m1 m2 : Option (List (String × String))) :
    let first := create_new_deployment mgr t1 n1 r1 d1 h1 u1 m1
    let second := create_new_deployment first.2 t2 n2 r2 d2 h2 u2 m2
    (t1 ≠ t2 → first.1.deployment_id ≠ second.1.deployment_id) ∧
      second.1.previous_deployment_id = some first.1.deployment_id ∧
      second.1.rollback_available = true := by
  intro first second
  have hid1 : first.1.deployment_id = "deploy-" ++ t1 := by
    simp [first, create_new_deployment]
  have hfile : first.2.stateFile = some (stateToDict { first.1 with updated_at := n1 }) := by
    simp [first, create_new_deployment, save_state]
  have hload : (load_state first.2).1 = some { first.1 with updated_at := n1 } := by
    unfold load_state
    rw [hfile]
    simp [stateFromDict_toDict]
  refine ⟨?_, ?_, ?_⟩
  · intro ht
    have hid2 : second.1.deployment_id = "deploy-" ++ t2 := by
      simp [second, create_new_deployment]
    rw [hid1, hid2]
    intro hcontra
    exact ht (string_append_cancel_left _ _ _ hcontra)
  · have : second.1.previous_deployment_id =
        (load_state first.2).1.map (fun p => p.deployment_id) := by
      simp [second, create_new_deployment]
    rw [this, hload]
    simp [hid1]
  · have : second.1.rollback_available = (load_state first.2).1.isSome := by
      simp [second, create_new_deployment]
    rw [this, hload]
    rfl

/-- C5 witness: the consecutive-creation theorem at two concrete timestamps. -/
theorem consecutive_create_new_deployment_witness :
    (create_new_deployment { tenant := "acme" } "20240101-000000"
        "2024-01-01T00:00:00Z" "docker" "acme.example" "10.0.0.5" "deploy"
        none).1.deployment_id ≠
      (create_new_deployment
        (create_new_deployment { tenant := "acme" } "20240101-000000"
          "2024-01-01T00:00:00Z" "docker" "acme.example" "10.0.0.5" "deploy"
          none).2
        "20240101-000001" "2024-01-01T00:00:01Z" "docker" "acme.example"
        "10.0.0.5" "deploy" none).1.deployment_id ∧
      (create_new_deployment
        (create_new_deployment { tenant := "acme" } "20240101-000000"
          "2024-01-01T00:00:00Z" "docker" "acme.example" "10.0.0.5" "deploy"
          none).2
        "20240101-000001" "2024-01-01T00:00:01Z" "docker" "acme.example"
        "10.0.0.5" "deploy" none).1.previous_deployment_id =
        some (create_new_deployment { tenant := "acme" } "20240101-000000"
          "2024-01-01T00:00:00Z" "docker" "acme.example" "10.0.0.5" "deploy"
          none).1.deployment_id ∧
      (create_new_deployment
        (create_new_deployment { tenant := "acme" } "20240101-000000"
          "2024-01-01T00:00:00Z" "docker" "acme.example" "10.0.0.5" "deploy"
          none).2
        "20240101-000001" "2024-01-01T00:00:01Z" "docker" "acme.example"
        "10.0.0.5" "deploy" none).1.rollback_available = true := by
  have h := consecutive_create_new_deployment { tenant := "acme" }
    "20240101-000000" "2024-01-01T00:00:00Z" "20240101-000001" "2024-01-01T00:00:01Z"
    "docker" "acme.example" "10.0.0.5" "deploy" "docker" "acme.example" "10.0.0.5"
    "deploy" none none
  exact ⟨h.1 (by decide), h.2.1, h.2.2⟩

/-- A concrete deployed service used as a test fixture. -/
def sampleService : ServiceState :=
  { name := "web"
    status := ServiceStatus.healthy
    version := some "1.2"
    image := some "nginx:1.25"
    ports := [80]
    last_updated := some "2024-01-01T00:00:00Z"
    health_check_failures := 0
    environment_hash := some "abc" }

/-- A concrete running deployment with one healthy service, used as a fixture. -/
def sampleState : DeploymentState :=
  { deployment_id := "deploy-20240101-000000"
    tenant := "acme"
    status := DeploymentStatus.running
    runtime := "docker"
    domain := "acme.example"
    started_at := "2024-01-01T00:00:00Z"
    updated_at := "2024-01-01T00:00:00Z"
    vm_host := "10.0.0.5"
    vm_user := "deploy"
    services := [("web", sampleService)]
    metadata := []
    previous_deployment_id := some "deploy-20231231-000000"
    rollback_available := true }

/-- A manager whose loaded current record is `sampleState`. -/
def sampleMgr : ManagerState :=
  { tenant := "acme"
    stateFile := some (stateToDict sampleState)
    backups := []
    current := some sampleState }

/-- C7: `can_rollback` answers false exactly when no current state exists
(the load yields nothing), or `rollback_available` is false, or the status
is already ROLLING_BACK or ROLLED_BACK; and immediately after a first
deployment created on an empty store it returns
`(false, "No previous deployment available")`. -/
theorem can_rollback_characterization (mgr : ManagerState)
    (t n r d h u : String) (m : Option (List (String × String))) :
    ((can_rollback mgr).1.1 = false ↔
      ((load_state mgr).1 = none ∨
        ∃ s, (load_state mgr).1 = some s ∧
          (s.rollback_available = false ∨ s.status = DeploymentStatus.rolling_back ∨
            s.status = DeploymentStatus.rolled_back))) ∧
      (mgr.stateFile = none →
        (can_rollback (create_new_deployment mgr t n r d h u m).2).1 =
          (false, some "No previous deployment available")) := by
  constructor
  · cases hl : (load_state mgr).1 with
    | none => simp [can_rollback, hl]
    | some s =>
        simp only [can_rollback, hl]
        by_cases hra : s.rollback_available = false
        · simp [hra]
        · by_cases hrb : s.status = DeploymentStatus.rolling_back
          · simp [hra, hrb]
          · by_cases hrc : s.status = DeploymentStatus.rolled_back
            · simp [hra, hrb, hrc]
            · simp [hra, hrb, hrc]
  · intro hf
    simp [create_new_deployment, load_state, hf, save_state, can_rollback,
      stateFromDict_toDict]

/-- C7 witness: the characterization applied to a fresh empty store for
tenant acme, giving the Scenario C answer after a first deployment. -/
theorem can_rollback_characterization_witness :
    (can_rollback (create_new_deployment { tenant := "acme" } "20240101-000000"
        "2024-01-01T00:00:00Z" "docker" "acme.example" "10.0.0.5" "deploy" none).2).1 =
      (false, some "No previous deployment available") :=
  (can_rollback_characterization { tenant := "acme" } "20240101-000000"
    "2024-01-01T00:00:00Z" "docker" "acme.example" "10.0.0.5" "deploy" none).2 rfl

/-- C8: `requires_update(name, hash)` is true when no current record exists,
true when the service is absent from the record, true when the stored
environment hash differs from the given hash, and false when it equals it. -/
theorem requires_update_characterization (mgr : ManagerState) (n h : String) :
    (mgr.current = none → requires_update mgr n h = true) ∧
      (∀ s, mgr.current = some s → dictGet n s.services = none →
        requires_update mgr n h = true) ∧
      (∀ s sv, mgr.current = some s → dictGet n s.services = some sv →
        sv.environment_hash ≠ some h → requires_update mgr n h = true) ∧
      (∀ s sv, mgr.current = some s → dictGet n s.services = some sv →
        sv.environment_hash = some h → requires_update mgr n h = false) := by
  refine ⟨?_, ?_, ?_, ?_⟩
  · intro hc
    simp [requires_update, hc]
  · intro s hc hg
    simp [requires_update, hc, hg]
  · intro s sv hc hg hne
    simp [requires_update, hc, hg, hne]
  · intro s sv hc hg heq
    simp [requires_update, hc, hg, heq]

/-- C8 witness: the characterization applied to an empty manager (fresh
deployment) and to a manager whose web service stores hash abc. -/
theorem requires_update_characterization_witness :
    requires_update { tenant := "acme" } "web" "abc" = true ∧
      requires_update sampleMgr "web" "abc" = false ∧
      requires_update sampleMgr "db" "abc" = true ∧
      requires_update sampleMgr "web" "def" = true :=
  ⟨(requires_update_characterization { tenant := "acme" } "web" "abc").1 rfl,
    (requires_update_characterization sampleMgr "web" "abc").2.2.2 sampleState
      sampleService rfl (by decide) (by decide),
    (requires_update_characterization sampleMgr "db" "abc").2.1 sampleState rfl (by decide),
    (requires_update_characterization sampleMgr "web" "def").2.2.1 sampleState
      sampleService rfl (by decide) (by decide)⟩

/-- C9: each of update_status, add_service, update_service_status and
set_environment_hash invoked with no current deployment record loaded fails
with the "No current deployment state loaded" error, and the manager
(in particular its persisted state file) is unchanged. -/
theorem no_active_deployment_error (mgr : ManagerState) (st : DeploymentStatus)
    (sn : String) (v i : Option String) (p : Option (List Int))
    (svst : ServiceStatus) (inc : Bool) (eh now : String)
    (hc : mgr.current = none) :
    update_status mgr st now = Except.error "No current deployment state loaded" ∧
      add_service mgr sn v i p now =
        Except.error "No current deployment state loaded" ∧
      update_service_status mgr sn svst inc now =
        Except.error "No current deployment state loaded" ∧
      set_environment_hash mgr sn eh now =
        Except.error "No current deployment state loaded" ∧
      afterOp (update_status mgr st now) mgr = mgr ∧
      afterOp (add_service mgr sn v i p now) mgr = mgr ∧
      afterOp (update_service_status mgr sn svst inc now) mgr = mgr ∧
      afterOp (set_environment_hash mgr sn eh now) mgr = mgr := by
  refine ⟨?_, ?_, ?_, ?_, ?_, ?_, ?_, ?_⟩ <;>
    simp [update_status, add_service, update_service_status, set_environment_hash,
      afterOp, hc]

/-- C9 witness: the no-active-deployment error on a fresh manager. -/
theorem no_active_deployment_error_witness :
    update_status { tenant := "acme" } DeploymentStatus.running "2024-01-01T00:00:00Z" =
      Except.error "No current deployment state loaded" :=
  (no_active_deployment_error { tenant := "acme" } DeploymentStatus.running "web"
    none none none ServiceStatus.healthy false "abc" "2024-01-01T00:00:00Z" rfl).1

/-- C10: with a current record loaded but the named service absent from its
services mapping, update_service_status and set_environment_hash raise no
error and leave the manager (in-memory record and persisted file alike)
completely unchanged. -/
theorem unknown_service_noop (mgr : ManagerState) (s : DeploymentState)
    (sn : String) (svst : ServiceStatus) (inc : Bool) (eh now : String)
    (hc : mgr.current = some s) (hg : dictGet sn s.services = none) :
    update_service_status mgr sn svst inc now = Except.ok mgr ∧
      set_environment_hash mgr sn eh now = Except.ok mgr := by
  constructor <;> simp [update_service_status, set_environment_hash, hc, hg]

/-- C10 witness: a healthy manager asked about a service named db that was
never added. -/
theorem unknown_service_noop_witness :
    update_service_status sampleMgr "db" ServiceStatus.unhealthy true
        "2024-01-02T00:00:00Z" = Except.ok sampleMgr ∧
      set_environment_hash sampleMgr "db" "abc" "2024-01-02T00:00:00Z" =
        Except.ok sampleMgr :=
  unknown_service_noop sampleMgr sampleState "db" ServiceStatus.unhealthy true "abc"
    "2024-01-02T00:00:00Z" rfl (by decide)

/-- C4 counterexample: updating an already-HEALTHY service with zero failures
does not leave everything but `updated_at` unchanged — the service's
`last_updated` field is rewritten to the call time as well, so the resulting
record differs from the original with only `updated_at` refreshed. -/
theorem healthy_update_changes_last_updated :
    (afterOp (update_service_status sampleMgr "web" ServiceStatus.healthy false
        "2024-01-02T00:00:00Z") sampleMgr).current ≠
      some { sampleState with updated_at := "2024-01-02T00:00:00Z" } := by
  decide

/-- C4 (amended): calling `update_service_status(n, HEALTHY)` on a current
record whose service n is already HEALTHY with zero health-check failures
leaves `health_check_failures` at 0 and changes no field of the state other
than `updated_at` and that service's `last_updated` (both set to the call
time). -/
theorem healthy_update_idempotent (mgr : ManagerState) (s : DeploymentState)
    (sn now : String) (sv : ServiceState)
    (hc : mgr.current = some s) (hg : dictGet sn s.services = some sv)
    (hst : sv.status = ServiceStatus.healthy) (hf : sv.health_check_failures = 0) :
    (afterOp (update_service_status mgr sn ServiceStatus.healthy false now) mgr).current =
      some { s with updated_at := now,
                    services :=
                      (dictSet sn { sv with last_updated := some now } s.services) } := by
  simp [update_service_status, afterOp, save_state, hc, hg, hst, hf]

/-- C4 witness: the amended idempotence theorem on the concrete healthy
sample deployment. -/
theorem healthy_update_idempotent_witness :
    (afterOp (update_service_status sampleMgr "web" ServiceStatus.healthy false
        "2024-01-02T00:00:00Z") sampleMgr).current =
      some { sampleState with
              updated_at := "2024-01-02T00:00:00Z"
              services :=
                (dictSet "web"
                  { sampleService with
                    last_updated := some "2024-01-02T00:00:00Z" } sampleState.services) } :=
  healthy_update_idempotent sampleMgr sampleState "web" "2024-01-02T00:00:00Z"
    sampleService rfl (by decide) (by decide) (by decide)

lemma uploadConfigurationsGo_eq_filterMap (env : RestoreEnv)
    (l : List (String × String)) :
    uploadConfigurationsGo env l = l.filterMap (uploadLogEntry env) := by
  induction l with
  | nil => rfl
  | cons e rest ih =>
      cases hu : uploadLogEntry env e <;> simp [uploadConfigurationsGo, hu, ih]

/-- A restore run whose extraction succeeds, with all four captured files
present, where the upload of the environment file raises a transport error
and every other upload succeeds. -/
def envC3 : RestoreEnv :=
  { extract_result := Except.ok ()
    extracted_dirs := ["snapshot-deploy-20240101-000000"]
    metadata_present := true
    files_present := ["paas-deployment_docker-compose.yml", "paas-deployment_.env",
      "paas-deployment_configs_", "_opt_deployment-state.yml"]
    upload_result := fun ln =>
      if ln = "paas-deployment_.env" then Except.error "connection reset"
      else Except.ok () }

/-- C3 counterexample: one upload call raised, yet `restore_snapshot` still
reports overall success (returns true, with the failure only logged) — so
success does not require that no upload call raised. -/
theorem restore_snapshot_success_despite_upload_failure :
    restore_snapshot envC3 =
      Except.ok (true, ["Failed to upload paas-deployment_.env: connection reset"]) ∧
      excIsError (envC3.upload_result "paas-deployment_.env") = true := by
  constructor <;> rfl

/-- C3 (amended): when extraction succeeds and the archive contains a
directory, each individual file-upload failure is only logged and the loop
continues to the next file (every entry of the mapping is processed
independently), and the overall operation returns true regardless of
whether any upload call raised. -/
theorem restore_snapshot_reports (env : RestoreEnv)
    (hex : env.extract_result = Except.ok ())
    (hdirs : env.extracted_dirs.isEmpty = false) :
    restore_snapshot env = Except.ok (true, upload_configurations env) ∧
      upload_configurations env = file_mapping.filterMap (uploadLogEntry env) := by
  constructor
  · simp [restore_snapshot, hex, hdirs]
  · exact uploadConfigurationsGo_eq_filterMap env file_mapping

/-- C3 witness: the amended restore-success theorem on the concrete failing
upload environment. -/
theorem restore_snapshot_reports_witness :
    restore_snapshot envC3 = Except.ok (true, upload_configurations envC3) ∧
      upload_configurations envC3 = file_mapping.filterMap (uploadLogEntry envC3) :=
  restore_snapshot_reports envC3 rfl rfl

lemma load_state_some_current (mgr : ManagerState) (s : DeploymentState)
    (h : (load_state mgr).1 = some s) : (load_state mgr).2.current = some s := by
  cases hf : mgr.stateFile with
  | none => simp [load_state, hf] at h
  | some d =>
      cases hp : stateFromDict d with
      | none => simp [load_state, hf, hp] at h
      | some s1 =>
          simp [load_state, hf, hp] at h ⊢
          exact h

lemma can_rollback_mgr_eq (mgr : ManagerState) :
    (can_rollback mgr).2 = (load_state mgr).2 := by
  cases hl : (load_state mgr).1 with
  | none => simp [can_rollback, hl]
  | some s =>
      simp only [can_rollback, hl]
      split_ifs <;> rfl

lemma can_rollback_true_spec (mgr : ManagerState)
    (h : (can_rollback mgr).1.1 = true) :
    ∃ s, (load_state mgr).1 = some s := by
  cases hl : (load_state mgr).1 with
  | none => simp [can_rollback, hl] at h
  | some s => exact ⟨s, rfl⟩

lemma mark_rollback_started_status (mgr : ManagerState) (s : DeploymentState)
    (now : String) (hc : mgr.current = some s) :
    persistedStatus (mark_rollback_started mgr now) = some "rolling_back" ∧
      currentStatus (mark_rollback_started mgr now) =
        some DeploymentStatus.rolling_back := by
  constructor <;>
    simp [mark_rollback_started, hc, save_state, persistedStatus, currentStatus,
      stateToDict, deploymentStatusStr]

/-- C2: when `rollback_deployment` passes the initial eligibility check and
any step of the subsequent sequence fails (previous state unresolvable,
no matching snapshot, stop, restore, restart, or — when requested — the
health verification step raising), the call returns a wrapped
rollback-failure error, and the manager it leaves behind still has status
ROLLING_BACK both in memory and in the persisted state file
(`mark_rollback_complete` is never reached and the status is not reverted). -/
theorem rollback_failure_leaves_rolling_back (mgr : ManagerState) (now : String)
    (env : RollbackEnv) (vh : Bool)
    (helig : (can_rollback mgr).1.1 = true)
    (hfail : rollbackStepFails (mark_rollback_started (can_rollback mgr).2 now) env
        vh = true) :
    excIsError (rollback_deployment mgr now env vh).1 = true ∧
      persistedStatus (rollback_deployment mgr now env vh).2 = some "rolling_back" ∧
      currentStatus (rollback_deployment mgr now env vh).2 =
        some DeploymentStatus.rolling_back := by
  obtain ⟨s, hl⟩ := can_rollback_true_spec mgr helig
  have hcur : (can_rollback mgr).2.current = some s := by
    rw [can_rollback_mgr_eq]
    exact load_state_some_current mgr s hl
  have hmark := mark_rollback_started_status (can_rollback mgr).2 s now hcur
  have hfix :
      ∀ e : String,
        (rollback_deployment mgr now env vh).1 = Except.error e →
        (rollback_deployment mgr now env vh).2 =
          mark_rollback_started (can_rollback mgr).2 now →
        excIsError (rollback_deployment mgr now env vh).1 = true ∧
          persistedStatus (rollback_deployment mgr now env vh).2 = some "rolling_back" ∧
          currentStatus (rollback_deployment mgr now env vh).2 =
            some DeploymentStatus.rolling_back := by
    intro e h1 h2
    refine ⟨by simp [h1, excIsError], ?_, ?_⟩
    · rw [h2]
      exact hmark.1
    · rw [h2]
      exact hmark.2
  cases hprev : get_previous_state (mark_rollback_started (can_rollback mgr).2 now) with
  | none =>
      apply hfix "Rollback failed: Previous deployment state not found" <;>
        simp [rollback_deployment, helig, hprev]
  | some prev =>
      cases hsnap : env.snapshots.find?
          (fun m => m.deployment_id = prev.deployment_id) with
      | none =>
          apply hfix ("Rollback failed: Snapshot not found for deployment: " ++
            prev.deployment_id) <;>
            simp [rollback_deployment, helig, hprev, hsnap]
      | some snap =>
          cases hstop : env.stop_result with
          | error e =>
              apply hfix ("Rollback failed: " ++ e) <;>
                simp [rollback_deployment, helig, hprev, hsnap, hstop]
          | ok u1 =>
              cases hres : env.restore_result with
              | error e =>
                  apply hfix ("Rollback failed: " ++ e) <;>
                    simp [rollback_deployment, helig, hprev, hsnap, hstop, hres]
              | ok u2 =>
                  cases hrst : env.restart_result with
                  | error e =>
                      apply hfix ("Rollback failed: " ++ e) <;>
                        simp [rollback_deployment, helig, hprev, hsnap, hstop, hres,
                          hrst]
                  | ok u3 =>
                      have hv : vh = true ∧ excIsError env.verify_result = true := by
                        simp [rollbackStepFails, hprev, hsnap, hstop, hres, hrst,
                          excIsError] at hfail
                        exact hfail
                      cases hver : env.verify_result with
                      | error e =>
                          apply hfix ("Rollback failed: " ++ e) <;>
                            simp [rollback_deployment, helig, hprev, hsnap, hstop,
                              hres, hrst, hv.1, hver]
                      | ok u4 =>
                          rw [hver] at hv
                          simp [excIsError] at hv

/-- A rollback environment with no snapshots on disk and all remote steps
healthy: resolving the matching snapshot is then the step that fails. -/
def envC2 : RollbackEnv :=
  { snapshots := []
    stop_result := Except.ok ()
    restore_result := Except.ok ()
    restart_result := Except.ok ()
    verify_result := Except.ok () }

/-- C2 witness: a rollback of the sample deployment whose previous state has
no surviving backup fails and leaves the status at ROLLING_BACK. -/
theorem rollback_failure_leaves_rolling_back_witness :
    excIsError (rollback_deployment sampleMgr "2024-01-02T00:00:00Z" envC2 true).1 =
        true ∧
      persistedStatus (rollback_deployment sampleMgr "2024-01-02T00:00:00Z" envC2
          true).2 = some "rolling_back" ∧
      currentStatus (rollback_deployment sampleMgr "2024-01-02T00:00:00Z" envC2
          true).2 = some DeploymentStatus.rolling_back :=
  rollback_failure_leaves_rolling_back sampleMgr "2024-01-02T00:00:00Z" envC2 true
    (by decide) (by decide)
